/-
Verification of the AI proctoring service's scoring and consumer pipeline.

Shallow embedding conventions:
  * Python floats are modelled as exact rationals (ℚ).  The float constants of
    the source (0.06, 0.40, ...) are taken at their decimal face value.
  * Python's built-in round(x, n) rounds to n decimal places with ties going
    to the even integer (banker's rounding); pyRound below models that on ℚ.
  * Python ints are modelled as ℤ.
  * Fallible code is modelled with Except / Option; code that catches every
    exception and returns a default is modelled as a total function whose
    failure modes are explicit constructors of the input type.
-/
import Mathlib

/-- Round a rational to the nearest integer, ties to even (Python's built-in
rounding mode for round). -/
def rndHE (q : ℚ) : ℤ :=
  if q - Int.floor q < 1/2 then Int.floor q
  else if 1/2 < q - Int.floor q then Int.floor q + 1
  else if Int.floor q % 2 = 0 then Int.floor q else Int.floor q + 1

/-- Model of Python round(q, n): round to n decimal places, ties to even. -/
def pyRound (q : ℚ) (n : ℕ) : ℚ :=
  (rndHE (q * 10 ^ n) : ℚ) / 10 ^ n

lemma rndHE_nonneg (q : ℚ) (h : 0 ≤ q) : 0 ≤ rndHE q := by
  have hf : (0 : ℤ) ≤ Int.floor q := Int.floor_nonneg.mpr h
  unfold rndHE
  split_ifs <;> omega

lemma rndHE_le (q : ℚ) (B : ℤ) (h : q ≤ B) : rndHE q ≤ B := by
  have hf : Int.floor q ≤ B := by
    have := Int.floor_mono h
    simpa using this
  have hfl : (Int.floor q : ℚ) ≤ q := Int.floor_le q
  unfold rndHE
  split_ifs with h1 h2 h3
  · exact hf
  · have hlt : Int.floor q < B := by
      by_contra hc
      have heq : Int.floor q = B := le_antisymm hf (by omega)
      have hq : q - (Int.floor q : ℚ) ≤ 0 := by
        rw [heq]; linarith
      linarith
    omega
  · exact hf
  · have hhalf : q - (Int.floor q : ℚ) = 1/2 := le_antisymm (not_lt.mp h2) (not_lt.mp h1)
    have hlt : Int.floor q < B := by
      by_contra hc
      have heq : Int.floor q = B := le_antisymm hf (by omega)
      have hq : q - (Int.floor q : ℚ) ≤ 0 := by
        rw [heq]; linarith
      linarith
    omega

lemma pyRound_nonneg (q : ℚ) (n : ℕ) (h : 0 ≤ q) : 0 ≤ pyRound q n := by
  have h1 : (0 : ℚ) ≤ q * 10 ^ n := by positivity
  have h2 : (0 : ℤ) ≤ rndHE (q * 10 ^ n) := rndHE_nonneg _ h1
  unfold pyRound
  positivity

lemma pyRound_le_one (q : ℚ) (n : ℕ) (h : q ≤ 1) : pyRound q n ≤ 1 := by
  have hpow : (0 : ℚ) < 10 ^ n := by positivity
  have h1 : q * 10 ^ n ≤ ((10 ^ n : ℤ) : ℚ) := by
    push_cast
    nlinarith
  have h2 : rndHE (q * 10 ^ n) ≤ (10 ^ n : ℤ) := rndHE_le _ _ h1
  unfold pyRound
  rw [div_le_one hpow]
  exact_mod_cast h2

lemma pyRound_grid (m : ℤ) (n : ℕ) : pyRound ((m : ℚ) / 10 ^ n) n = (m : ℚ) / 10 ^ n := by
  have hpow : (10 : ℚ) ^ n ≠ 0 := by positivity
  have hx : ((m : ℚ) / 10 ^ n) * 10 ^ n = (m : ℚ) := div_mul_cancel₀ _ hpow
  unfold pyRound rndHE
  rw [hx]
  norm_num

lemma pyRound_idem (q : ℚ) (n : ℕ) : pyRound (pyRound q n) n = pyRound q n := by
  unfold pyRound
  exact pyRound_grid (rndHE (q * 10 ^ n)) n

-- ── Severity labels (strings in the source; an enumeration here) ─────────────

/-- Severity labels used by the service: NONE, LOW, MEDIUM, HIGH, CRITICAL. -/
inductive Severity where
  | NONE
  | LOW
  | MEDIUM
  | HIGH
  | CRITICAL
deriving DecidableEq

/-- Numeric rank of a severity label, for stating monotonicity. -/
def sevRank : Severity → ℕ
  | .NONE => 0
  | .LOW => 1
  | .MEDIUM => 2
  | .HIGH => 3
  | .CRITICAL => 4

-- ── Settings (app/config.py defaults) ────────────────────────────────────────

/-- Default of Settings.critical_threshold (config.py). -/
def critical_threshold : ℚ := 0.90

/-- Default of Settings.high_risk_threshold (config.py). -/
def high_risk_threshold : ℚ := 0.75

/-- Default of Settings.speech_ratio_threshold (config.py). -/
def speech_ratio_threshold : ℚ := 0.20

-- ── Input/output records of the risk aggregator (risk_aggregator.py) ─────────

/-- Aggregated outputs from all vision modules for one frame. -/
structure VisionResult where
  face_present : Bool := true
  face_count : ℤ := 1
  gaze_off_screen : Bool := false
  eyes_closed : Bool := false
  mouth_open : Bool := false
  phone_detected : Bool := false
  notes_detected : Bool := false
  extra_person : Bool := false
  phone_confidence : ℚ := 0
  notes_confidence : ℚ := 0
deriving DecidableEq

/-- VAD result for a single audio chunk. -/
structure AudioResult where
  speech_detected : Bool := false
  speech_ratio : ℚ := 0
  speech_duration_ms : ℚ := 0
deriving DecidableEq

/-- Rolling-window behavioural event counts. -/
structure BehaviourFeatures where
  tab_switches : ℤ := 0
  copy_paste_count : ℤ := 0
  context_menu_count : ℤ := 0
  fullscreen_exits : ℤ := 0
  focus_loss_count : ℤ := 0
  event_rate_per_min : ℚ := 0
deriving DecidableEq

/-- One violation dict (event_type, severity, confidence).  The description
string of the source is presentation-only formatted text and is not modelled. -/
structure Violation where
  event_type : String
  severity : Severity
  confidence : ℚ
deriving DecidableEq

/-- Final aggregated risk output published to proctoring.results. -/
structure RiskResult where
  risk_score : ℚ := 0
  severity : Severity := .NONE
  violations : List Violation := []
deriving DecidableEq

-- ── Helpers (risk_aggregator.py) ─────────────────────────────────────────────

/-- Severity tier from a risk score (risk_aggregator._severity), with the
default configured thresholds critical = 0.90 and high = 0.75. -/
def _severity (score : ℚ) : Severity :=
  if critical_threshold ≤ score then .CRITICAL
  else if high_risk_threshold ≤ score then .HIGH
  else if 0.40 ≤ score then .MEDIUM
  else if 0 < score then .LOW
  else .NONE

/-- Predicate used by score_frame's final filter: severity in
(MEDIUM, HIGH, CRITICAL). -/
def emittableSev (v : Violation) : Bool :=
  decide (v.severity = .MEDIUM ∨ v.severity = .HIGH ∨ v.severity = .CRITICAL)

-- ── Public scoring functions (risk_aggregator.py) ────────────────────────────

/-- Face sub-score of score_frame: risk 1.0 with a FACE_NOT_DETECTED violation
when the face is missing, else risk 0.80 with a MULTIPLE_FACES violation when
two or more faces are present, else risk 0. -/
def frame_face (vision : VisionResult) : ℚ × List Violation :=
  if vision.face_present = false ∨ vision.face_count = 0 then
    (1.0, [{ event_type := "FACE_NOT_DETECTED", severity := .HIGH, confidence := 0.95 }])
  else if 2 ≤ vision.face_count then
    (0.80, [{ event_type := "MULTIPLE_FACES", severity := .HIGH, confidence := 0.85 }])
  else (0.0, [])

/-- Gaze sub-score of score_frame: risk 1.0 with a GAZE_AWAY violation when
the gaze is off screen, else risk 0. -/
def frame_gaze (vision : VisionResult) : ℚ × List Violation :=
  if vision.gaze_off_screen then
    (1.0, [{ event_type := "GAZE_AWAY", severity := .MEDIUM, confidence := 0.80 }])
  else (0.0, [])

/-- Object risk after the phone step: object_risk starts at 0 and is raised to
max(phone_confidence, 0.75) when a phone is detected, appending a
PHONE_DETECTED violation. -/
def frame_obj1 (vision : VisionResult) : ℚ × List Violation :=
  if vision.phone_detected then
    (max 0.0 (max vision.phone_confidence 0.75),
     [{ event_type := "PHONE_DETECTED", severity := .HIGH,
        confidence := pyRound vision.phone_confidence 3 }])
  else (0.0, [])

/-- Object risk after the notes step: raised to max(notes_confidence, 0.65)
when notes are detected, appending a NOTES_DETECTED violation. -/
def frame_obj2 (vision : VisionResult) : ℚ × List Violation :=
  if vision.notes_detected then
    (max (frame_obj1 vision).1 (max vision.notes_confidence 0.65),
     [{ event_type := "NOTES_DETECTED", severity := .MEDIUM,
        confidence := pyRound vision.notes_confidence 3 }])
  else ((frame_obj1 vision).1, [])

/-- Object risk after the extra-person step: raised to at least 0.85 when an
extra person is detected, appending a MULTIPLE_PERSONS violation. -/
def frame_obj3 (vision : VisionResult) : ℚ × List Violation :=
  if vision.extra_person then
    (max (frame_obj2 vision).1 0.85,
     [{ event_type := "MULTIPLE_PERSONS", severity := .HIGH, confidence := 0.85 }])
  else ((frame_obj2 vision).1, [])

/-- Mouth sub-score of score_frame: 0.10 when the mouth is open, else 0. -/
def frame_mouth (vision : VisionResult) : ℚ :=
  if vision.mouth_open then 0.10 else 0.0

/-- Weighted composite frame score, clamped above by 1.0 (the audio slot
contributes zero in the frame path, scored by the AudioConsumer separately). -/
def frame_score (vision : VisionResult) : ℚ :=
  min 1.0 ((frame_face vision).1 * 0.30 + (frame_gaze vision).1 * 0.20
    + 0.0 * 0.20 + (frame_obj3 vision).1 * 0.20 + frame_mouth vision * 0.10)

/-- Violation list of score_frame in source append order: face branch, gaze,
phone, notes, extra person. -/
def frame_violations (vision : VisionResult) : List Violation :=
  (frame_face vision).2 ++ (frame_gaze vision).2 ++ (frame_obj1 vision).2
    ++ (frame_obj2 vision).2 ++ (frame_obj3 vision).2

/-- Compute risk score for a single camera frame (risk_aggregator.score_frame).
The named sub-definitions above mirror the source's local accumulators; the
emitted list keeps only MEDIUM, HIGH and CRITICAL violations. -/
def score_frame (vision : VisionResult) : RiskResult :=
  { risk_score := pyRound (frame_score vision) 4
    severity := _severity (frame_score vision)
    violations := (frame_violations vision).filter emittableSev }

lemma frame_face_fst_nonneg (v : VisionResult) : 0 ≤ (frame_face v).1 := by
  unfold frame_face
  split_ifs <;> norm_num

lemma frame_gaze_fst_nonneg (v : VisionResult) : 0 ≤ (frame_gaze v).1 := by
  unfold frame_gaze
  split_ifs <;> norm_num

lemma frame_obj3_fst_nonneg (v : VisionResult) : 0 ≤ (frame_obj3 v).1 := by
  unfold frame_obj3 frame_obj2 frame_obj1
  split_ifs <;> positivity

lemma frame_mouth_nonneg (v : VisionResult) : 0 ≤ frame_mouth v := by
  unfold frame_mouth
  split_ifs <;> norm_num

lemma frame_score_nonneg (v : VisionResult) : 0 ≤ frame_score v := by
  have h1 := frame_face_fst_nonneg v
  have h2 := frame_gaze_fst_nonneg v
  have h3 := frame_obj3_fst_nonneg v
  have h4 := frame_mouth_nonneg v
  unfold frame_score
  refine le_min (by norm_num) ?_
  nlinarith

lemma frame_score_le_one (v : VisionResult) : frame_score v ≤ 1 := by
  unfold frame_score
  exact le_trans (min_le_left _ _) (by norm_num)

/-- Risk result for one audio chunk (risk_aggregator.score_audio). -/
def score_audio (audio : AudioResult) : RiskResult :=
  if audio.speech_detected then
    let sev : Severity := if 0.50 < audio.speech_ratio then .HIGH else .MEDIUM
    let risk_score : ℚ := pyRound (min 1.0 audio.speech_ratio) 4
    { risk_score := risk_score
      severity := _severity risk_score
      violations := [{ event_type := "SUSPICIOUS_AUDIO", severity := sev,
                       confidence := pyRound audio.speech_ratio 3 }] }
  else
    { risk_score := 0, severity := _severity 0, violations := [] }

/-- Behaviour risk (risk_aggregator._compute_behaviour_risk).  The source
first tries the XGBoost classifier when models.xgboost_loaded is set; under
the rule-based fallback precondition (classifier unavailable or failing, the
configuration every behaviour claim addresses) the function is the capped
weighted sum embedded here. -/
def _compute_behaviour_risk (features : BehaviourFeatures) : ℚ :=
  min 1.0 (0
    + min 0.40 ((features.tab_switches : ℚ) * 0.06)
    + min 0.25 ((features.copy_paste_count : ℚ) * 0.05)
    + min 0.20 ((features.context_menu_count : ℚ) * 0.04)
    + min 0.20 ((features.fullscreen_exits : ℚ) * 0.05)
    + min 0.20 ((features.focus_loss_count : ℚ) * 0.04)
    + min 0.20 (features.event_rate_per_min * 0.02))

/-- Spec-side restatement of the rule-based behaviour score, written from the
spec's words: score = min(1.0, sum over the table of min(cap_i, factor_i *
feature_i)) with the factor/cap table of section 4.5.  Kept separate from the
source embedding so the two can be compared. -/
def spec_rule_score (f : BehaviourFeatures) : ℚ :=
  min 1.0 (min 0.40 (0.06 * (f.tab_switches : ℚ))
    + min 0.25 (0.05 * (f.copy_paste_count : ℚ))
    + min 0.20 (0.04 * (f.context_menu_count : ℚ))
    + min 0.20 (0.05 * (f.fullscreen_exits : ℚ))
    + min 0.20 (0.04 * (f.focus_loss_count : ℚ))
    + min 0.20 (0.02 * f.event_rate_per_min))

/-- Risk result for a behaviour feature snapshot (risk_aggregator.score_behaviour). -/
def score_behaviour (features : BehaviourFeatures) : RiskResult :=
  let risk : ℚ := _compute_behaviour_risk features
  let violations : List Violation :=
    if 0.30 ≤ risk then
      [{ event_type := "SUSPICIOUS_BEHAVIOR", severity := _severity risk,
         confidence := pyRound risk 3 }]
    else []
  { risk_score := pyRound risk 4
    severity := _severity risk
    violations := violations }

/-- Feature vector of the spec's behavior-burst scenario. -/
def burstFeatures : BehaviourFeatures :=
  { tab_switches := 15, copy_paste_count := 10, context_menu_count := 5,
    fullscreen_exits := 5, focus_loss_count := 8, event_rate_per_min := 12 }

/-- Feature vector whose fallback risk is 0.3001, exhibiting the gap between
confidence (rounded to 3 decimals) and risk_score (rounded to 4 decimals). -/
def gapFeatures : BehaviourFeatures :=
  { tab_switches := 5, event_rate_per_min := 1/200 }

-- ── Audio VAD module (app/modules/audio_vad.py) ──────────────────────────────

/-- Output dict of the VAD module: always carries the same four fields. -/
structure VadResult where
  speech_detected : Bool
  speech_ratio : ℚ
  speech_duration_ms : ℚ
  total_duration_ms : ℚ
deriving DecidableEq

/-- Safe default returned on any decode or processing failure
(audio_vad._default_result). -/
def _default_result : VadResult :=
  { speech_detected := false, speech_ratio := 0,
    speech_duration_ms := 0, total_duration_ms := 0 }

/-- Abstract outcome of the collaborator decode chain in audio_vad.analyze.
b64Fail models a base64 decode error; procFail models any pydub / webrtcvad
failure inside analyze_bytes (both are caught by the source and mapped to the
default); decoded carries the per-30ms-frame speech flags produced by the
webrtcvad collaborator together with the clip length in ms. -/
inductive AudioInput where
  | b64Fail
  | procFail
  | decoded (frames : List Bool) (total_ms : ℚ)

/-- VAD analysis (audio_vad.analyze composed with analyze_bytes): total at its
public interface — every failure constructor maps to the safe default, an
empty frame list maps to the safe default, and otherwise speech_detected
compares the raw ratio against the configured threshold while the reported
ratio is rounded to 3 decimals and speech duration is 30 ms per speech frame. -/
def vad_analyze : AudioInput → VadResult
  | .b64Fail => _default_result
  | .procFail => _default_result
  | .decoded frames total_ms =>
    let total_frames : ℕ := frames.length
    let speech_frames : ℕ := (frames.filter id).length
    if total_frames = 0 then _default_result
    else
      let speech_ratio : ℚ := (speech_frames : ℚ) / (total_frames : ℚ)
      { speech_detected := decide (speech_ratio_threshold < speech_ratio)
        speech_ratio := pyRound speech_ratio 3
        speech_duration_ms := (speech_frames : ℚ) * 30
        total_duration_ms := total_ms }

-- ── Outbound publishes and the consumer framework ────────────────────────────

/-- One outbound result message handed to publish_result.  The session id,
description and metadata bag are carried verbatim by the source and not
modelled; the fields below are the ones the claims constrain. -/
structure PublishedResult where
  event_type : String
  severity : Severity
  confidence : ℚ
  risk_score : ℚ
  snapshot_path : Option String
deriving DecidableEq

/-- Broker acknowledgement action taken for one delivered message. -/
inductive Delivery where
  | ack
  | nack (requeue : Bool)
deriving DecidableEq

/-- Per-message policy of BaseConsumer._on_message: the handler result is acked
on normal return and nacked without requeue on any raised exception.  The
source emits exactly one of the two calls per delivery, which the return value
models; broker-level I/O faults of the ack call itself are outside the model. -/
def _on_message (handler : Except String Unit) : Delivery :=
  match handler with
  | .ok _ => .ack
  | .error _ => .nack false

/-- Discard a handler's payload, keeping only its normal/raising outcome. -/
def handlerOutcome {α : Type} (h : Except String α) : Except String Unit :=
  h.map fun _ => ()

-- ── Audio consumer (app/consumers/audio_consumer.py) ─────────────────────────

/-- AudioConsumer.process_message on the VAD result of one message: return
(publishing nothing) when speech_detected is false, otherwise publish one
SUSPICIOUS_AUDIO violation with the tiered severity, confidence
round(ratio, 3) and risk_score round(ratio * 0.6, 3).  The handler body raises
nothing after the VAD call, hence the Except.ok everywhere. -/
def AudioConsumer.process_message (result : VadResult) :
    Except String (List PublishedResult) :=
  if result.speech_detected = false then .ok []
  else
    let ratio := result.speech_ratio
    let severity : Severity :=
      if 0.70 < ratio then .HIGH
      else if 0.50 < ratio then .MEDIUM
      else .LOW
    .ok [{ event_type := "SUSPICIOUS_AUDIO", severity := severity,
           confidence := pyRound ratio 3,
           risk_score := pyRound (ratio * 0.6) 3,
           snapshot_path := none }]

-- ── Frame consumer (app/consumers/frame_consumer.py) ─────────────────────────

/-- Abstract outcome of the frame decode step plus the outside collaborators
of one frame message: decodeFail models a base64 / JPEG decode error (caught
by the source, which then returns without publishing); decodedFrame carries
the vision evidence assembled from the four vision modules and the object key
the snapshot upload would return (none when the upload fails). -/
inductive FrameInput where
  | decodeFail
  | decodedFrame (vision : VisionResult) (uploadResult : Option String)

/-- FrameConsumer.process_message: on decode failure return with no effects;
otherwise score the frame, return when there is no violation, attempt the
snapshot upload only for HIGH/CRITICAL aggregate severity, and publish one
message per violation carrying the aggregate risk_score and the per-violation
severity and confidence.  The Bool records whether a snapshot upload was
attempted. -/
def FrameConsumer.process_message (input : FrameInput) :
    Except String (List PublishedResult × Bool) :=
  match input with
  | .decodeFail => .ok ([], false)
  | .decodedFrame vision uploadResult =>
    let risk := score_frame vision
    if risk.violations = [] then .ok ([], false)
    else
      let uploads : Bool := decide (risk.severity = .HIGH ∨ risk.severity = .CRITICAL)
      let snapshot_path : Option String := if uploads then uploadResult else none
      .ok (risk.violations.map fun v =>
        { event_type := v.event_type, severity := v.severity,
          confidence := v.confidence, risk_score := risk.risk_score,
          snapshot_path := snapshot_path }, uploads)

-- ── Behavior consumer (app/consumers/behavior_consumer.py) ───────────────────

/-- Rolling-window capacity: keep only the last 50 events per session. -/
def _WINDOW_SIZE : ℕ := 50

/-- Sliding window in seconds for the rate calculation. -/
def _WINDOW_SECS : ℚ := 300

/-- Append to a deque with maxlen cap: when the deque is full the oldest
(leftmost) entry is evicted before the new one is appended on the right. -/
def dequeAppend {α : Type} (cap : ℕ) (xs : List α) (x : α) : List α :=
  if cap ≤ xs.length then xs.tail ++ [x] else xs ++ [x]

/-- One inbound behavior event message (sessionId, type, timestamp in ms). -/
structure BehaviorMsg where
  sessionId : String
  type : String
  timestamp : ℚ
deriving DecidableEq

/-- Per-session event history of the behavior consumer: session id to the
bounded list of (event_type, timestamp_seconds) pairs, empty by default
(defaultdict of deques). -/
def BehaviorState : Type := String → List (String × ℚ)

/-- Initial behavior-consumer state: no session has any history. -/
def initBehaviorState : BehaviorState := fun _ => []

/-- Tally event counts from the rolling window
(behavior_consumer._compute_features): among entries at most 300 s old, count
each recognized label and derive the event rate as recent count per minute of
window. -/
def _compute_features (history : List (String × ℚ)) (now_sec : ℚ) : BehaviourFeatures :=
  let cutoff : ℚ := now_sec - _WINDOW_SECS
  let recent := history.filter fun p => decide (cutoff ≤ p.2)
  let count : String → ℤ := fun lbl =>
    ((recent.filter fun p => decide (p.1 = lbl)).length : ℤ)
  let event_rate : ℚ :=
    if recent = [] then 0 else (recent.length : ℚ) / (_WINDOW_SECS / 60)
  { tab_switches := count "TAB_SWITCH"
    copy_paste_count := count "COPY_PASTE"
    context_menu_count := count "CONTEXT_MENU"
    fullscreen_exits := count "FULLSCREEN_EXIT"
    focus_loss_count := count "FOCUS_LOSS"
    event_rate_per_min := event_rate }

/-- BehaviorConsumer.process_message: append (type, timestamp/1000) to the
session's bounded history (capacity 50, oldest evicted), compute features over
the rolling window, score them, and publish one message per violation unless
the risk score is below 0.30 with no violations.  The best-effort DB persist
step has no effect on this state and is not modelled. -/
def BehaviorConsumer.process_message (st : BehaviorState) (msg : BehaviorMsg) :
    BehaviorState × List PublishedResult :=
  let now_sec : ℚ := msg.timestamp / 1000
  let history := dequeAppend _WINDOW_SIZE (st msg.sessionId) (msg.type, now_sec)
  let st' : BehaviorState := Function.update st msg.sessionId history
  let features := _compute_features history now_sec
  let risk := score_behaviour features
  if risk.risk_score < 0.30 ∧ risk.violations = [] then (st', [])
  else
    (st', risk.violations.map fun v =>
      { event_type := v.event_type, severity := v.severity,
        confidence := v.confidence, risk_score := risk.risk_score,
        snapshot_path := none })

/-- State of the behavior consumer after processing a message sequence from
the initial empty state. -/
def runBehavior (msgs : List BehaviorMsg) : BehaviorState :=
  msgs.foldl (fun st m => (BehaviorConsumer.process_message st m).1) initBehaviorState

-- ── Theorems ─────────────────────────────────────────────────────────────────

/-- C4: under the rule-based fallback, the behaviour risk equals the spec's
capped weighted sum min(1.0, sum of min(cap_i, factor_i * feature_i)) with the
documented factor/cap table; and at the burst feature vector
(15, 10, 5, 5, 8, 12) every cap applies, the capped sum 1.45 clamps to 1.0,
severity is CRITICAL and one SUSPICIOUS_BEHAVIOR violation is emitted. -/
theorem behaviour_rule_matches_spec_and_burst :
    (∀ f : BehaviourFeatures, _compute_behaviour_risk f = spec_rule_score f) ∧
    score_behaviour burstFeatures =
      { risk_score := 1, severity := .CRITICAL,
        violations := [{ event_type := "SUSPICIOUS_BEHAVIOR",
                         severity := .CRITICAL, confidence := 1 }] } := by
  constructor
  · intro f
    unfold _compute_behaviour_risk spec_rule_score
    ring_nf
  · norm_num [score_behaviour, _compute_behaviour_risk, burstFeatures, _severity,
      critical_threshold, high_risk_threshold, pyRound, rndHE]

/-- C6: the severity tier is a pure function of the score that, with the
default thresholds, maps scores at or above 0.90 to CRITICAL, at or above
0.75 to HIGH, at or above 0.40 to MEDIUM, positive scores to LOW, zero and
negative scores to NONE, and is monotone non-decreasing in the score. -/
theorem severity_tier_map_and_monotone :
    (∀ s : ℚ, 0.90 ≤ s → _severity s = .CRITICAL) ∧
    (∀ s : ℚ, 0.75 ≤ s → s < 0.90 → _severity s = .HIGH) ∧
    (∀ s : ℚ, 0.40 ≤ s → s < 0.75 → _severity s = .MEDIUM) ∧
    (∀ s : ℚ, 0 < s → s < 0.40 → _severity s = .LOW) ∧
    (∀ s : ℚ, s ≤ 0 → _severity s = .NONE) ∧
    (∀ s1 s2 : ℚ, s1 ≤ s2 → sevRank (_severity s1) ≤ sevRank (_severity s2)) := by
  refine ⟨?_, ?_, ?_, ?_, ?_, ?_⟩
  · intro s h
    unfold _severity critical_threshold
    split_ifs <;> first | rfl | linarith
  · intro s h1 h2
    unfold _severity critical_threshold high_risk_threshold
    split_ifs <;> first | rfl | linarith
  · intro s h1 h2
    unfold _severity critical_threshold high_risk_threshold
    split_ifs <;> first | rfl | linarith
  · intro s h1 h2
    unfold _severity critical_threshold high_risk_threshold
    split_ifs <;> first | rfl | linarith
  · intro s h
    unfold _severity critical_threshold high_risk_threshold
    split_ifs <;> first | rfl | linarith
  · intro s1 s2 h
    unfold _severity critical_threshold high_risk_threshold
    split_ifs <;> simp [sevRank] <;> linarith

/-- Witness for C6: concrete instances of the tier map and of monotonicity. -/
theorem severity_tier_map_and_monotone_witness :
    ((0.90 : ℚ) ≤ 0.95 ∧ _severity 0.95 = .CRITICAL) ∧
    ((0.5 : ℚ) ≤ 0.8 ∧ sevRank (_severity 0.5) ≤ sevRank (_severity 0.8)) :=
  ⟨⟨by norm_num, severity_tier_map_and_monotone.1 0.95 (by norm_num)⟩,
   ⟨by norm_num, severity_tier_map_and_monotone.2.2.2.2.2 0.5 0.8 (by norm_num)⟩⟩

/-- C8: the consumer framework acks a delivery exactly when the handler
returns normally; a handler exception yields a nack with requeue set to
false; no delivery is ever requeued, and a failing handler never acks.  The
policy emits exactly one acknowledgement per delivery by construction. -/
theorem consumer_ack_policy :
    ∀ r : Except String Unit,
      ((_on_message r = .ack) ↔ (∃ u, r = .ok u)) ∧
      (∀ e : String, _on_message (.error e) = .nack false) ∧
      (_on_message r ≠ .nack true) := by
  intro r
  refine ⟨?_, ?_, ?_⟩
  · cases r <;> simp [_on_message]
  · intro e
    simp [_on_message]
  · cases r <;> simp [_on_message]

/-- C1 counterexample: score_audio has no lower clamp, so a record with
speech_detected true and speech_ratio -1 (outside the documented [0,1] range,
which the claim explicitly includes) yields risk_score -1, outside [0,1]. -/
theorem score_audio_escapes_unit_interval :
    (score_audio { speech_detected := true, speech_ratio := -1 }).risk_score = -1 ∧
    ¬ (0 ≤ (score_audio { speech_detected := true, speech_ratio := -1 }).risk_score) := by
  have h : (score_audio { speech_detected := true, speech_ratio := -1 }).risk_score = -1 := by
    norm_num [score_audio, pyRound, rndHE, min_def]
  rw [h]
  norm_num

/-- C1 amended: score_frame keeps risk_score in [0,1] for every input;
score_audio keeps it in [0,1] whenever speech_ratio is nonnegative; the
rule-based score_behaviour keeps it in [0,1] whenever all six features are
nonnegative. -/
theorem risk_scores_bounded :
    (∀ v : VisionResult,
      0 ≤ (score_frame v).risk_score ∧ (score_frame v).risk_score ≤ 1) ∧
    (∀ a : AudioResult, 0 ≤ a.speech_ratio →
      0 ≤ (score_audio a).risk_score ∧ (score_audio a).risk_score ≤ 1) ∧
    (∀ f : BehaviourFeatures,
      0 ≤ f.tab_switches → 0 ≤ f.copy_paste_count → 0 ≤ f.context_menu_count →
      0 ≤ f.fullscreen_exits → 0 ≤ f.focus_loss_count → 0 ≤ f.event_rate_per_min →
      0 ≤ (score_behaviour f).risk_score ∧ (score_behaviour f).risk_score ≤ 1) := by
  refine ⟨?_, ?_, ?_⟩
  · intro v
    exact ⟨pyRound_nonneg _ _ (frame_score_nonneg v),
           pyRound_le_one _ _ (frame_score_le_one v)⟩
  · intro a ha
    simp only [score_audio]
    split_ifs
    · exact ⟨pyRound_nonneg _ _ (le_min (by norm_num) ha),
             pyRound_le_one _ _ (le_trans (min_le_left _ _) (by norm_num))⟩
    · exact ⟨pyRound_nonneg _ _ (le_min (by norm_num) ha),
             pyRound_le_one _ _ (le_trans (min_le_left _ _) (by norm_num))⟩
    · norm_num
  · intro f h1 h2 h3 h4 h5 h6
    have h1q : (0 : ℚ) ≤ (f.tab_switches : ℚ) := by exact_mod_cast h1
    have h2q : (0 : ℚ) ≤ (f.copy_paste_count : ℚ) := by exact_mod_cast h2
    have h3q : (0 : ℚ) ≤ (f.context_menu_count : ℚ) := by exact_mod_cast h3
    have h4q : (0 : ℚ) ≤ (f.fullscreen_exits : ℚ) := by exact_mod_cast h4
    have h5q : (0 : ℚ) ≤ (f.focus_loss_count : ℚ) := by exact_mod_cast h5
    have hsum : (0 : ℚ) ≤ _compute_behaviour_risk f := by
      unfold _compute_behaviour_risk
      have t1 : (0 : ℚ) ≤ min 0.40 ((f.tab_switches : ℚ) * 0.06) :=
        le_min (by norm_num) (by nlinarith)
      have t2 : (0 : ℚ) ≤ min 0.25 ((f.copy_paste_count : ℚ) * 0.05) :=
        le_min (by norm_num) (by nlinarith)
      have t3 : (0 : ℚ) ≤ min 0.20 ((f.context_menu_count : ℚ) * 0.04) :=
        le_min (by norm_num) (by nlinarith)
      have t4 : (0 : ℚ) ≤ min 0.20 ((f.fullscreen_exits : ℚ) * 0.05) :=
        le_min (by norm_num) (by nlinarith)
      have t5 : (0 : ℚ) ≤ min 0.20 ((f.focus_loss_count : ℚ) * 0.04) :=
        le_min (by norm_num) (by nlinarith)
      have t6 : (0 : ℚ) ≤ min 0.20 (f.event_rate_per_min * 0.02) :=
        le_min (by norm_num) (by nlinarith)
      refine le_min (by norm_num) ?_
      linarith
    have hle : _compute_behaviour_risk f ≤ 1 := by
      unfold _compute_behaviour_risk
      exact le_trans (min_le_left _ _) (by norm_num)
    simp only [score_behaviour]
    exact ⟨pyRound_nonneg _ _ hsum, pyRound_le_one _ _ hle⟩

/-- Witness for the amended C1: concrete in-range inputs for all three
scoring functions land in [0,1]. -/
theorem risk_scores_bounded_witness :
    (0 ≤ (score_frame { gaze_off_screen := true }).risk_score ∧
      (score_frame { gaze_off_screen := true }).risk_score ≤ 1) ∧
    ((0 : ℚ) ≤ 0.8 ∧
      0 ≤ (score_audio { speech_detected := true, speech_ratio := 0.8 }).risk_score ∧
      (score_audio { speech_detected := true, speech_ratio := 0.8 }).risk_score ≤ 1) ∧
    (0 ≤ (score_behaviour burstFeatures).risk_score ∧
      (score_behaviour burstFeatures).risk_score ≤ 1) :=
  ⟨risk_scores_bounded.1 { gaze_off_screen := true },
   ⟨by norm_num,
    risk_scores_bounded.2.1 { speech_detected := true, speech_ratio := 0.8 } (by norm_num)⟩,
   risk_scores_bounded.2.2 burstFeatures (by norm_num [burstFeatures])
     (by norm_num [burstFeatures]) (by norm_num [burstFeatures])
     (by norm_num [burstFeatures]) (by norm_num [burstFeatures])
     (by norm_num [burstFeatures])⟩

/-- C2 counterexample: at features (5, 0, 0, 0, 0, 0.005) the fallback risk is
0.3001; the returned risk_score is round(0.3001, 4) = 0.3001 ≥ 0.30, but the
emitted violation's confidence is round(0.3001, 3) = 0.300, which differs from
the returned risk_score — refuting the claim that confidence equals it. -/
theorem behaviour_confidence_differs_from_risk_score :
    (score_behaviour gapFeatures).risk_score = 3001/10000 ∧
    0.30 ≤ (score_behaviour gapFeatures).risk_score ∧
    (score_behaviour gapFeatures).violations =
      [{ event_type := "SUSPICIOUS_BEHAVIOR", severity := .LOW, confidence := 3/10 }] ∧
    (3/10 : ℚ) ≠ 3001/10000 := by
  have h : score_behaviour gapFeatures =
      { risk_score := 3001/10000, severity := .LOW,
        violations := [{ event_type := "SUSPICIOUS_BEHAVIOR", severity := .LOW,
                         confidence := 3/10 }] } := by
    norm_num [score_behaviour, _compute_behaviour_risk, gapFeatures, _severity,
      critical_threshold, high_risk_threshold, pyRound, rndHE]
  rw [h]
  norm_num

/-- C2 amended: whenever the computed behaviour risk (before rounding) is at
least 0.30, score_behaviour emits exactly one SUSPICIOUS_BEHAVIOR violation
whose severity is derived from the global thresholds and whose confidence is
the risk rounded to 3 decimals (while the returned risk_score is the risk
rounded to 4 decimals); when the risk is below 0.30 the list is empty. -/
theorem behaviour_violation_emission :
    ∀ f : BehaviourFeatures,
      (0.30 ≤ _compute_behaviour_risk f →
        (score_behaviour f).violations =
          [{ event_type := "SUSPICIOUS_BEHAVIOR",
             severity := _severity (_compute_behaviour_risk f),
             confidence := pyRound (_compute_behaviour_risk f) 3 }] ∧
        (score_behaviour f).risk_score = pyRound (_compute_behaviour_risk f) 4) ∧
      (_compute_behaviour_risk f < 0.30 → (score_behaviour f).violations = []) := by
  intro f
  constructor
  · intro h
    refine ⟨?_, rfl⟩
    simp only [score_behaviour]
    rw [if_pos h]
  · intro h
    simp only [score_behaviour]
    rw [if_neg (not_le.mpr h)]

/-- Witness for the amended C2: the burst feature vector has fallback risk
1 ≥ 0.30 and emits the SUSPICIOUS_BEHAVIOR violation. -/
theorem behaviour_violation_emission_witness :
    0.30 ≤ _compute_behaviour_risk burstFeatures ∧
    ((score_behaviour burstFeatures).violations =
      [{ event_type := "SUSPICIOUS_BEHAVIOR",
         severity := _severity (_compute_behaviour_risk burstFeatures),
         confidence := pyRound (_compute_behaviour_risk burstFeatures) 3 }] ∧
     (score_behaviour burstFeatures).risk_score =
       pyRound (_compute_behaviour_risk burstFeatures) 4) :=
  ⟨by norm_num [_compute_behaviour_risk, burstFeatures],
   (behaviour_violation_emission burstFeatures).1
     (by norm_num [_compute_behaviour_risk, burstFeatures])⟩

/-- C3: every violation emitted by score_frame has severity MEDIUM, HIGH or
CRITICAL; the frame pipeline never emits a LOW-severity violation. -/
theorem frame_violations_medium_or_higher :
    ∀ (vision : VisionResult) (v : Violation),
      v ∈ (score_frame vision).violations →
      v.severity ∈ [Severity.MEDIUM, Severity.HIGH, Severity.CRITICAL] := by
  intro vision v hv
  have heq : (score_frame vision).violations
      = (frame_violations vision).filter emittableSev := rfl
  rw [heq, List.mem_filter] at hv
  have hp := hv.2
  unfold emittableSev at hp
  simp only [decide_eq_true_eq] at hp
  rcases hp with h | h | h <;> simp [h]

/-- Vision record with only an off-screen gaze, producing one MEDIUM
GAZE_AWAY violation. -/
def gazeVision : VisionResult := { gaze_off_screen := true }

/-- Witness for C3: the GAZE_AWAY violation of the gaze-only frame is in the
emitted list and its severity is among MEDIUM, HIGH, CRITICAL. -/
theorem frame_violations_medium_or_higher_witness :
    ({ event_type := "GAZE_AWAY", severity := .MEDIUM, confidence := 0.80 } : Violation)
        ∈ (score_frame gazeVision).violations ∧
    ({ event_type := "GAZE_AWAY", severity := .MEDIUM, confidence := 0.80 } : Violation).severity
        ∈ [Severity.MEDIUM, Severity.HIGH, Severity.CRITICAL] := by
  have hlist : (score_frame gazeVision).violations =
      [{ event_type := "GAZE_AWAY", severity := .MEDIUM, confidence := 0.80 }] := by
    norm_num [score_frame, frame_violations, frame_face, frame_gaze, frame_obj1,
      frame_obj2, frame_obj3, gazeVision, emittableSev, List.filter_cons]
  have hmem : ({ event_type := "GAZE_AWAY", severity := .MEDIUM, confidence := 0.80 } : Violation)
      ∈ (score_frame gazeVision).violations := by
    rw [hlist]
    exact List.mem_singleton.mpr rfl
  exact ⟨hmem, frame_violations_medium_or_higher gazeVision _ hmem⟩

lemma pyRound_zero (n : ℕ) : pyRound 0 n = 0 := by
  norm_num [pyRound, rndHE]

/-- The ratio reported by the VAD is always a fixed point of rounding to
3 decimals: it is either the default 0 or itself a 3-decimal rounding. -/
lemma vad_ratio_round_fixed (i : AudioInput) :
    pyRound (vad_analyze i).speech_ratio 3 = (vad_analyze i).speech_ratio := by
  cases i with
  | b64Fail => exact pyRound_zero 3
  | procFail => exact pyRound_zero 3
  | decoded frames total_ms =>
    simp only [vad_analyze]
    split_ifs
    · exact pyRound_zero 3
    · exact pyRound_idem _ 3

/-- C5: for every audio message (every VAD outcome), the Audio Consumer
publishes nothing when speech_detected is false, and otherwise publishes
exactly one SUSPICIOUS_AUDIO result with severity HIGH when the reported
speech_ratio exceeds 0.70, MEDIUM when it exceeds 0.50, LOW otherwise,
confidence equal to the reported speech_ratio, and risk_score equal to
speech_ratio * 0.6 rounded to 3 decimals. -/
theorem audio_consumer_publish :
    ∀ i : AudioInput,
      ((vad_analyze i).speech_detected = false →
        AudioConsumer.process_message (vad_analyze i) = .ok []) ∧
      ((vad_analyze i).speech_detected = true →
        AudioConsumer.process_message (vad_analyze i) =
          .ok [{ event_type := "SUSPICIOUS_AUDIO",
                 severity :=
                   if 0.70 < (vad_analyze i).speech_ratio then .HIGH
                   else if 0.50 < (vad_analyze i).speech_ratio then .MEDIUM
                   else .LOW,
                 confidence := (vad_analyze i).speech_ratio,
                 risk_score := pyRound ((vad_analyze i).speech_ratio * 0.6) 3,
                 snapshot_path := none }]) := by
  intro i
  constructor
  · intro h
    simp [AudioConsumer.process_message, h]
  · intro h
    simp only [AudioConsumer.process_message, h]
    rw [vad_ratio_round_fixed i]
    simp

/-- Witness for C5: a decoded clip with 4 of 5 speech frames has ratio 0.8,
is detected, and yields the HIGH-severity publish with confidence 0.8. -/
theorem audio_consumer_publish_witness :
    (vad_analyze (AudioInput.decoded [true, true, true, true, false] 150)).speech_detected
        = true ∧
    AudioConsumer.process_message
        (vad_analyze (AudioInput.decoded [true, true, true, true, false] 150)) =
      .ok [{ event_type := "SUSPICIOUS_AUDIO",
             severity :=
               if 0.70 < (vad_analyze
                   (AudioInput.decoded [true, true, true, true, false] 150)).speech_ratio
               then .HIGH
               else if 0.50 < (vad_analyze
                   (AudioInput.decoded [true, true, true, true, false] 150)).speech_ratio
               then .MEDIUM
               else .LOW,
             confidence := (vad_analyze
                 (AudioInput.decoded [true, true, true, true, false] 150)).speech_ratio,
             risk_score := pyRound ((vad_analyze
                 (AudioInput.decoded [true, true, true, true, false] 150)).speech_ratio * 0.6) 3,
             snapshot_path := none }] := by
  have hdet : (vad_analyze
      (AudioInput.decoded [true, true, true, true, false] 150)).speech_detected = true := by
    norm_num [vad_analyze, speech_ratio_threshold, List.filter]
  exact ⟨hdet, (audio_consumer_publish (AudioInput.decoded [true, true, true, true, false] 150)).2 hdet⟩

lemma dequeAppend_length_le {α : Type} (cap : ℕ) (hcap : 1 ≤ cap) (xs : List α) (x : α)
    (h : xs.length ≤ cap) : (dequeAppend cap xs x).length ≤ cap := by
  unfold dequeAppend
  split_ifs with hfull
  · simp only [List.length_append, List.length_tail, List.length_cons, List.length_nil]
    omega
  · simp only [List.length_append, List.length_cons, List.length_nil]
    omega

lemma behavior_step_state (st : BehaviorState) (m : BehaviorMsg) :
    (BehaviorConsumer.process_message st m).1 =
      Function.update st m.sessionId
        (dequeAppend _WINDOW_SIZE (st m.sessionId) (m.type, m.timestamp / 1000)) := by
  simp only [BehaviorConsumer.process_message]
  split_ifs <;> rfl

lemma behavior_fold_bound (msgs : List BehaviorMsg) :
    ∀ st : BehaviorState, (∀ sid, (st sid).length ≤ _WINDOW_SIZE) →
      ∀ sid, ((msgs.foldl (fun st m => (BehaviorConsumer.process_message st m).1) st) sid).length
        ≤ _WINDOW_SIZE := by
  induction msgs with
  | nil =>
    intro st h sid
    exact h sid
  | cons m ms ih =>
    intro st h sid
    simp only [List.foldl_cons]
    apply ih
    intro sid'
    rw [behavior_step_state st m]
    by_cases hsid : sid' = m.sessionId
    · subst hsid
      rw [Function.update_same]
      exact dequeAppend_length_le _ (by norm_num [_WINDOW_SIZE]) _ _ (h _)
    · rw [Function.update_noteq hsid]
      exact h sid'

/-- C7: after processing any sequence of behaviour messages from the initial
state, every session's rolling history holds at most 50 entries; and
appending to a full (50-entry) history drops the oldest entry and keeps the
length at 50 instead of growing. -/
theorem behavior_window_bounded :
    (∀ (msgs : List BehaviorMsg) (sid : String),
      ((runBehavior msgs) sid).length ≤ _WINDOW_SIZE) ∧
    (∀ (xs : List (String × ℚ)) (x : String × ℚ), xs.length = _WINDOW_SIZE →
      dequeAppend _WINDOW_SIZE xs x = xs.tail ++ [x] ∧
      (dequeAppend _WINDOW_SIZE xs x).length = _WINDOW_SIZE) := by
  constructor
  · intro msgs sid
    exact behavior_fold_bound msgs initBehaviorState
      (fun _ => by simp [initBehaviorState]) sid
  · intro xs x h
    have hfull : _WINDOW_SIZE ≤ xs.length := le_of_eq h.symm
    have heq : dequeAppend _WINDOW_SIZE xs x = xs.tail ++ [x] := by
      unfold dequeAppend
      rw [if_pos hfull]
    refine ⟨heq, ?_⟩
    rw [heq]
    simp only [List.length_append, List.length_tail, List.length_cons, List.length_nil]
    have : 1 ≤ xs.length := by
      rw [h]; norm_num [_WINDOW_SIZE]
    omega

/-- Witness for C7: the invariant at the empty message list, and eviction on
a concrete full 50-entry history. -/
theorem behavior_window_bounded_witness :
    ((runBehavior []) "session-1").length ≤ _WINDOW_SIZE ∧
    ((List.replicate 50 (("TAB_SWITCH", (0 : ℚ)))).length = _WINDOW_SIZE ∧
      (dequeAppend _WINDOW_SIZE (List.replicate 50 (("TAB_SWITCH", (0 : ℚ))))
          ("COPY_PASTE", 1) =
        (List.replicate 50 (("TAB_SWITCH", (0 : ℚ)))).tail ++ [("COPY_PASTE", 1)] ∧
      (dequeAppend _WINDOW_SIZE (List.replicate 50 (("TAB_SWITCH", (0 : ℚ))))
          ("COPY_PASTE", 1)).length = _WINDOW_SIZE)) :=
  ⟨behavior_window_bounded.1 [] "session-1",
   by simp [_WINDOW_SIZE],
   behavior_window_bounded.2 (List.replicate 50 (("TAB_SWITCH", (0 : ℚ))))
     ("COPY_PASTE", 1) (by simp [_WINDOW_SIZE])⟩

/-- C9: a frame message whose payload fails base64 or JPEG decoding makes the
Frame Consumer return normally with no published result and no snapshot
upload, and the framework then acks the message. -/
theorem frame_consumer_poison_frame :
    FrameConsumer.process_message .decodeFail = .ok ([], false) ∧
    _on_message (handlerOutcome (FrameConsumer.process_message .decodeFail)) = .ack := by
  exact ⟨rfl, rfl⟩

/-- C10: the VAD analysis is total at its public interface: both decode
failure modes and an empty decoded clip return the safe default record, whose
four fields exist with speech_detected false and speech_ratio 0; consequently
the Audio Consumer publishes nothing for an undecodable clip and the message
is acked. -/
theorem vad_total_safe_default :
    vad_analyze .b64Fail = _default_result ∧
    vad_analyze .procFail = _default_result ∧
    (∀ t : ℚ, vad_analyze (.decoded [] t) = _default_result) ∧
    _default_result.speech_detected = false ∧
    _default_result.speech_ratio = 0 ∧
    AudioConsumer.process_message (vad_analyze .b64Fail) = .ok [] ∧
    _on_message (handlerOutcome (AudioConsumer.process_message (vad_analyze .b64Fail)))
      = .ack := by
  refine ⟨rfl, rfl, ?_, rfl, rfl, rfl, rfl⟩
  intro t
  rfl
